import Mathlib

/-!
Verification development for the UVMMaster educational web application.

The two pieces of logic specified are the sequence-to-text compiler
(src/components/SequenceBuilder.tsx) and the walkthrough step state
machine (src/App.tsx, guarded clicks in src/components/UvmDiagram.tsx).
This file embeds both shallowly: JavaScript strings become `String`,
JavaScript numbers holding integer values become `Int` (with `Option Int`
where `undefined`/`NaN` can occur), and React state updates become pure
functions on explicit state records.
-/

/-! ## Data model (src/types.ts) -/

/-- `TransactionKind` from src/types.ts: READ, WRITE, IDLE. -/
inductive TransactionKind where
  | READ
  | WRITE
  | IDLE
deriving DecidableEq, Repr

/-- The string value of each `TransactionKind` enum member in src/types.ts
(the TypeScript enum members are the literal strings). -/
def kindText : TransactionKind → String
  | TransactionKind.READ => "READ"
  | TransactionKind.WRITE => "WRITE"
  | TransactionKind.IDLE => "IDLE"

/-- `SequenceStep` from src/types.ts. `delay` is a JavaScript number; every
value stored in a step comes from `parseInt(...) || 0` so it is always an
integer (possibly negative), modelled as `Int`. -/
structure SequenceStep where
  id : String
  kind : TransactionKind
  addr : String
  data : String
  delay : Int
deriving DecidableEq, Repr

/-- `UvmComponentType` from src/types.ts. -/
inductive UvmComponentType where
  | TOP
  | TEST
  | ENV
  | AGENT
  | SEQUENCER
  | DRIVER
  | MONITOR
  | SCOREBOARD
  | DUT
  | INTERFACE
  | SEQUENCE
  | CONFIG_DB
deriving DecidableEq, Repr

/-- `SimulationStep` from src/types.ts (walkthrough tutorial step). -/
structure SimulationStep where
  id : Nat
  label : String
  component : UvmComponentType
  description : String
  codeSnippet : String
deriving DecidableEq, Repr

/-! ## SequenceBuilder logic (src/components/SequenceBuilder.tsx) -/

/-- JavaScript `x || d` for a number that may be `undefined` or `NaN`
(both modelled as `none`); `0` is falsy, every other integer truthy. -/
def jsOrNum (x : Option Int) (d : Int) : Int :=
  match x with
  | none => d
  | some v => if v = 0 then d else v

/-- JavaScript `v || d` for a number known to be a real integer
(`0` is falsy). -/
def jsOrElse (v : Int) (d : Int) : Int :=
  if v = 0 then d else v

/-- JavaScript `s || d` for a string that may be `undefined` (`none`);
the empty string is falsy. -/
def jsOrStr (x : Option String) (d : String) : String :=
  match x with
  | none => d
  | some s => if s = "" then d else s

/-- JavaScript `k || d` for an optional `TransactionKind`; the enum values
are the non-empty strings READ/WRITE/IDLE, all truthy, so only
`undefined` falls back. -/
def jsOrKind (x : Option TransactionKind) (d : TransactionKind) : TransactionKind :=
  x.getD d

/-- The `Partial<SequenceStep>` form state `currentStep` of SequenceBuilder:
every field may be absent (`undefined`). -/
structure PartialStep where
  kind : Option TransactionKind
  addr : Option String
  data : Option String
  delay : Option Int
deriving DecidableEq, Repr

/-- `addStep` from SequenceBuilder.tsx: appends a new step built from the
pending form, with JavaScript `||` defaults on every field; `now` stands
for `Date.now().toString()`. -/
def addStep (steps : List SequenceStep) (cur : PartialStep) (now : String) :
    List SequenceStep :=
  steps ++ [{ id := now
              kind := jsOrKind cur.kind TransactionKind.WRITE
              addr := jsOrStr cur.addr "0"
              data := jsOrStr cur.data "0"
              delay := jsOrNum cur.delay 0 }]

/-- `removeStep` from SequenceBuilder.tsx: `steps.filter(s => s.id !== id)`. -/
def removeStep (steps : List SequenceStep) (sid : String) : List SequenceStep :=
  steps.filter (fun s => s.id ≠ sid)

/-- The body text emitted for one step by `generateCode`, after the numbered
comment header (the header is the only index-dependent part). Braces of the
SystemVerilog constraint block are written with hex escapes. -/
def stepBody (step : SequenceStep) : String :=
  if step.kind = TransactionKind.IDLE then
    "    #" ++ toString (jsOrElse step.delay 10) ++ ";\n\n"
  else
    "    req = my_transaction::type_id::create(\"req\");\n" ++
    "    start_item(req);\n" ++
    "    if (!req.randomize() with \x7b\n" ++
    "      addr == " ++ step.addr ++ ";\n" ++
    "      kind == " ++ kindText step.kind ++ ";\n" ++
    (if step.kind = TransactionKind.WRITE then
      "      data == " ++ step.data ++ ";\n"
    else "") ++
    "    \x7d) `uvm_error(\"SEQ\", \"Randomization failed\")\n" ++
    "    finish_item(req);\n" ++
    (if step.delay > 0 then "    #" ++ toString step.delay ++ ";\n" else "") ++
    "\n"

/-- The full per-step block of `generateCode`: numbered comment header
(1-based position, kind) followed by the body. -/
def stepBlock (index : Nat) (step : SequenceStep) : String :=
  "    // Step " ++ toString (index + 1) ++ ": " ++ kindText step.kind ++ "\n" ++
  stepBody step

/-- The fixed class preamble of `generateCode` (class header, utils macro
line, constructor, task opening). -/
def classHead : String :=
  "class my_custom_seq extends uvm_sequence #(my_transaction);\n" ++
  "  `uvm_object_utils(my_custom_seq)\n\n" ++
  "  function new(string name = \"my_custom_seq\");\n    super.new(name);\n  endfunction\n\n" ++
  "  virtual task body();\n    my_transaction req;\n\n"

/-- The fixed closing boilerplate of `generateCode`. -/
def classTail : String := "  endtask\nendclass"

/-- The placeholder comment emitted when the step list is empty. -/
def emptyPlaceholder : String := "    // Add transactions to see code here\n"

/-- The step iteration of `generateCode`
(`steps.forEach((step, index) => ...)`): one block per step in list
order, `k` being the index of the first step of the remaining list. -/
def blocksFrom (k : Nat) : List SequenceStep → String
  | [] => ""
  | s :: rest => stepBlock k s ++ blocksFrom (k + 1) rest

/-- `generateCode` from SequenceBuilder.tsx: fixed preamble, placeholder
comment when the list is empty, one block per step in list order, fixed
closing text. -/
def generateCode (steps : List SequenceStep) : String :=
  classHead ++
  (if steps.length = 0 then emptyPlaceholder else "") ++
  blocksFrom 0 steps ++
  classTail

/-! ## Delay input coercion (SequenceBuilder delay field onChange) -/

/-- Whitespace skipped by JavaScript `parseInt` before the number. -/
def isSpaceChar (c : Char) : Bool :=
  c == ' ' || c == '\t' || c == '\n' || c == '\r'

/-- Value of the longest leading run of decimal digits; `none` when there
is no leading digit. -/
def digitsVal (cs : List Char) : Option Nat :=
  let ds := cs.takeWhile Char.isDigit
  if ds.isEmpty then none
  else some (ds.foldl (fun n c => n * 10 + (c.toNat - '0'.toNat)) 0)

/-- JavaScript `parseInt(text)` on the decimal texts produced by the
`type="number"` delay input: skip leading whitespace, optional sign,
longest decimal digit prefix; `none` models `NaN`. -/
def parseIntJS (s : String) : Option Int :=
  let cs := s.data.dropWhile isSpaceChar
  match cs with
  | '-' :: rest => (digitsVal rest).map (fun n => -(n : Int))
  | '+' :: rest => (digitsVal rest).map (fun n => (n : Int))
  | _ => (digitsVal cs).map (fun n => (n : Int))

/-- The value stored in `currentStep.delay` by the delay input onChange
handler: `parseInt(e.target.value) || 0`. -/
def storedDelay (text : String) : Int :=
  jsOrNum (parseIntJS text) 0

/-- The delay input onChange handler itself: stores the coerced value in
the pending step. -/
def delayInput (cur : PartialStep) (text : String) : PartialStep :=
  { cur with delay := some (storedDelay text) }

/-! ## Walkthrough state machine (src/App.tsx, src/components/UvmDiagram.tsx) -/

/-- The seven `WALKTHROUGH_STEPS` of src/App.tsx (apostrophes and braces in
the display texts are written with hex escapes). -/
def walkthroughSteps : List SimulationStep :=
  [{ id := 0
     label := "Sequence Creation"
     component := UvmComponentType.SEQUENCE
     description := "The journey begins in the Sequence. The body() task creates a transaction object (req) and initiates the handshake with the Sequencer using start_item()."
     codeSnippet := "// Inside sequence body()\nreq = my_transaction::type_id::create(\"req\");\n\nstart_item(req); // Request grant from sequencer\n\nif(!req.randomize()) `uvm_error(\"SEQ\", \"Randomize failed\");\n\nfinish_item(req); // Execute item (blocks until driver is done)" },
   { id := 1
     label := "Sequencer Arbitration"
     component := UvmComponentType.SEQUENCER
     description := "The Sequencer receives the request. If multiple sequences are running, it arbitrates between them. Once granted, it passes the transaction handle to the Driver."
     codeSnippet := "// The sequencer code is usually implicit in UVM\n// Conceptually:\nwait_for_grant(sequence_ptr);\nselected_sequence.mid_do(item);\ndriver_port.put(item);\nselected_sequence.post_do(item);" },
   { id := 2
     label := "Driver Fetches Item"
     component := UvmComponentType.DRIVER
     description := "The Driver pulls the transaction from the Sequencer using get_next_item(). It effectively \x27pulls\x27 data when it is ready to drive the bus."
     codeSnippet := "// Inside driver run_phase\nforever begin\n  seq_item_port.get_next_item(req); // Blocking call\n  \n  drive_transfer(req); // Custom task to wiggle pins\n  \n  seq_item_port.item_done(); // Tell sequence we are finished\nend" },
   { id := 3
     label := "Driving Signals (Pin Level)"
     component := UvmComponentType.INTERFACE
     description := "This is where UVM meets hardware. The Driver wiggles the pins on the Virtual Interface handle. This converts the high-level \x27Transaction\x27 object into raw 1s and 0s."
     codeSnippet := "// Inside driver task drive_transfer(my_transaction t);\n@(posedge vif.clk);\nvif.psel    <= 1\x27b1;\nvif.paddr   <= t.addr;\nvif.pwdata  <= t.data;\nvif.pwrite  <= (t.kind == WRITE);\n@(posedge vif.clk);\nvif.psel    <= 1\x27b0;" },
   { id := 4
     label := "DUT Execution"
     component := UvmComponentType.DUT
     description := "The Design Under Test (Verilog/VHDL) responds to the signal changes on the interface. The hardware logic executes."
     codeSnippet := "// Verilog DUT Code\nalways @(posedge clk) begin\n  if (psel && pwrite) begin\n    mem[paddr] <= pwdata;\n    prdata <= 32\x27h0;\n  end else if (psel && !pwrite) begin\n    prdata <= mem[paddr];\n  end\nend" },
   { id := 5
     label := "Monitor Sampling"
     component := UvmComponentType.MONITOR
     description := "The Monitor passively observes the interface. When it detects a valid protocol cycle, it samples the signal values and packs them back into a new Transaction object."
     codeSnippet := "// Inside monitor run_phase\nforever begin\n  @(posedge vif.clk);\n  if (vif.psel === 1\x27b1) begin\n    tr = my_transaction::type_id::create(\"tr\");\n    tr.addr = vif.paddr;\n    tr.data = (vif.pwrite) ? vif.pwdata : vif.prdata;\n    tr.kind = (vif.pwrite) ? WRITE : READ;\n    \n    // Send to scoreboard\n    ap.write(tr); \n  end\nend" },
   { id := 6
     label := "Scoreboard Check"
     component := UvmComponentType.SCOREBOARD
     description := "The Scoreboard receives the transaction from the Monitor via an Analysis Port. It compares the observed result against the Expected Result (Reference Model)."
     codeSnippet := "// Inside scoreboard write() implementation\nfunction void write(my_transaction t);\n  my_transaction expected;\n  \n  expected = predictor.predict(t.addr, t.kind);\n  \n  if (t.data !== expected.data) begin\n    `uvm_error(\"SB\", $sformatf(\"Mismatch! Exp: %0h, Got: %0h\", expected.data, t.data))\n  end else begin\n    `uvm_info(\"SB\", \"Match successful\", UVM_LOW)\n  end\nendfunction" }]

/-- `WALKTHROUGH_STEPS.length` (the `totalSteps` prop in src/App.tsx). -/
def totalSteps : Nat := walkthroughSteps.length

/-- `WALKTHROUGH_STEPS[i].component` for an integer index; within the
bounds checked by the App guards the index is in range, so the fallback
component is never reached there. -/
def stepComponent (i : Int) : UvmComponentType :=
  ((walkthroughSteps.get? i.toNat).map SimulationStep.component).getD
    UvmComponentType.DRIVER

/-- The App state relevant to the walkthrough: the active component and
the walkthrough cursor `simulationStepIndex` (−1 = inactive). -/
structure AppState where
  activeComponent : UvmComponentType
  simulationStepIndex : Int
deriving DecidableEq, Repr

/-- `startSimulation` from src/App.tsx. -/
def startSimulation (s : AppState) : AppState :=
  { s with simulationStepIndex := 0, activeComponent := stepComponent 0 }

/-- `nextStep` from src/App.tsx. -/
def nextStep (s : AppState) : AppState :=
  if s.simulationStepIndex < (totalSteps : Int) - 1 then
    { s with simulationStepIndex := s.simulationStepIndex + 1
             activeComponent := stepComponent (s.simulationStepIndex + 1) }
  else s

/-- `prevStep` from src/App.tsx. -/
def prevStep (s : AppState) : AppState :=
  if s.simulationStepIndex > 0 then
    { s with simulationStepIndex := s.simulationStepIndex - 1
             activeComponent := stepComponent (s.simulationStepIndex - 1) }
  else s

/-- `stopSimulation` from src/App.tsx: only resets the cursor. -/
def stopSimulation (s : AppState) : AppState :=
  { s with simulationStepIndex := -1 }

/-- `isSimulating` from src/components/UvmDiagram.tsx:
`simulationStepIndex >= 0`. -/
def isSimulating (s : AppState) : Bool :=
  s.simulationStepIndex ≥ 0

/-- A diagram node click in src/components/UvmDiagram.tsx: every node's
onClick handler is `!isSimulating && onSelectComponent(c)`, where
`onSelectComponent` is the App's `setActiveComponent`. -/
def diagramClick (s : AppState) (c : UvmComponentType) : AppState :=
  if isSimulating s then s else { s with activeComponent := c }

/-- A walkthrough navigation event: the Next or Prev button. -/
inductive WalkOp where
  | next
  | prev
deriving DecidableEq, Repr

/-- Apply one navigation event to the App state. -/
def applyOp (s : AppState) : WalkOp → AppState
  | WalkOp.next => nextStep s
  | WalkOp.prev => prevStep s

/-- Run a sequence of navigation events from a state. -/
def runOps (s : AppState) (ops : List WalkOp) : AppState :=
  ops.foldl applyOp s

/-! ## Concrete steps used to settle the order-sensitivity claim -/

/-- The fixed template text of a WRITE block between the header and the
address literal. -/
def tmplAddr : String :=
  "    req = my_transaction::type_id::create(\"req\");\n    start_item(req);\n    if (!req.randomize() with \x7b\n      addr == "

/-- The fixed template text of a WRITE block between the address literal
and the data literal. -/
def tmplData : String := ";\n      kind == WRITE;\n      data == "

/-- The fixed template text of a zero-delay WRITE block after the data
literal. -/
def tmplClose : String :=
  ";\n    \x7d) `uvm_error(\"SEQ\", \"Randomization failed\")\n    finish_item(req);\n\n"

/-- The numbered comment header of the second block. -/
def tmplHeader2 : String := "    // Step 2: WRITE\n"

/-- A free-form address text that embeds one whole rendered WRITE block,
so that a step carrying it renders like two consecutive blocks. -/
def collideAddr : String :=
  "0" ++ tmplData ++ "0" ++ tmplClose ++ tmplHeader2 ++ tmplAddr ++ "0"

/-- A plain WRITE step. -/
def cexA : SequenceStep :=
  { id := "a", kind := TransactionKind.WRITE, addr := "0", data := "0", delay := 0 }

/-- A WRITE step that differs from `cexA` in `id` and in `addr`, yet whose
swap with `cexA` compiles to the same text. -/
def cexB : SequenceStep :=
  { id := "b", kind := TransactionKind.WRITE, addr := collideAddr, data := "0", delay := 0 }

example : totalSteps = 7 := rfl
example : stepComponent 0 = UvmComponentType.SEQUENCE := rfl
example : storedDelay "42" = 42 := by decide
example : storedDelay "abc" = 0 := by decide
example : storedDelay "-5" = -5 := by decide

/-! ## Helper lemmas -/

/-- Cancel a common left factor of a string equation. -/
lemma append_cancel_left' {a b c : String} (h : a ++ b = a ++ c) : b = c := by
  have hd := congrArg String.data h
  simp only [String.data_append] at hd
  exact String.ext (List.append_cancel_left hd)

/-- Two strings led by the texts of two different kinds are different:
the three kind texts start with three distinct characters. -/
lemma kindText_head_ne {ka kb : TransactionKind} (h : ka ≠ kb) (x y : String) :
    kindText ka ++ x ≠ kindText kb ++ y := by
  intro he
  have hd := congrArg String.data he
  simp only [String.data_append] at hd
  cases ka <;> cases kb <;> first
    | exact h rfl
    | simp [kindText] at hd

/-- The block of the step at index `i` occurs inside the rendered block
run, at running index `k + i`. -/
lemma blocksFrom_split (l : List SequenceStep) (k i : Nat) (s : SequenceStep)
    (h : l.get? i = some s) :
    ∃ u v : String, blocksFrom k l = u ++ (stepBlock (k + i) s ++ v) := by
  induction l generalizing k i with
  | nil => simp at h
  | cons a l ih =>
    cases i with
    | zero =>
      obtain rfl : a = s := by simpa using h
      refine ⟨"", blocksFrom (k + 1) l, ?_⟩
      simp [blocksFrom]
    | succ i =>
      have h' : l.get? i = some s := by simpa using h
      obtain ⟨u, v, hu⟩ := ih (k + 1) i h'
      refine ⟨stepBlock k a ++ u, v, ?_⟩
      rw [show k + (i + 1) = k + 1 + i from by omega]
      simp [blocksFrom, hu, String.append_assoc]

/-- Every step of a list contributes its block to the compiled output,
framed by the class preamble and the closing boilerplate. -/
lemma generateCode_split (steps : List SequenceStep) (i : Nat) (s : SequenceStep)
    (h : steps.get? i = some s) :
    ∃ u v : String,
      generateCode steps = (classHead ++ u) ++ (stepBlock i s ++ (v ++ classTail)) := by
  obtain ⟨u, v, hu⟩ := blocksFrom_split steps 0 i s h
  have hne : steps.length ≠ 0 := by
    intro h0
    rw [List.length_eq_zero] at h0
    subst h0
    simp at h
  refine ⟨u, v, ?_⟩
  simp [generateCode, hne, hu, String.append_assoc]

/-! ## Claim theorems -/

set_option maxRecDepth 4096 in
/-- C9: compiling the empty step list yields exactly the fixed class
preamble, the single placeholder comment line inside the body, no per-step
blocks, and the fixed closing boilerplate. -/
theorem generateCode_empty :
    generateCode [] =
      "class my_custom_seq extends uvm_sequence #(my_transaction);\n  `uvm_object_utils(my_custom_seq)\n\n  function new(string name = \"my_custom_seq\");\n    super.new(name);\n  endfunction\n\n  virtual task body();\n    my_transaction req;\n\n    // Add transactions to see code here\n  endtask\nendclass" := by
  rfl

/-- C7: from every state, `stopSimulation` sets the cursor to −1, and a
subsequent `startSimulation` sets the cursor to 0 and the active component
to the component of walkthrough step 0, with no memory of the cursor
position before the stop. -/
theorem stop_then_start (s : AppState) :
    (stopSimulation s).simulationStepIndex = -1 ∧
    (startSimulation (stopSimulation s)).simulationStepIndex = 0 ∧
    (startSimulation (stopSimulation s)).activeComponent = stepComponent 0 ∧
    stepComponent 0 = UvmComponentType.SEQUENCE := by
  refine ⟨rfl, rfl, rfl, rfl⟩

/-- C8: removing an id that occurs in no step leaves the list unchanged and
the compiled output identical. -/
theorem removeStep_absent (steps : List SequenceStep) (sid : String)
    (h : ∀ s ∈ steps, s.id ≠ sid) :
    removeStep steps sid = steps ∧
    generateCode (removeStep steps sid) = generateCode steps := by
  have he : removeStep steps sid = steps := by
    apply List.filter_eq_self.mpr
    intro s hs
    simpa using h s hs
  exact ⟨he, by rw [he]⟩

/-- Witness for C8 at a concrete one-step list and an absent id. -/
theorem removeStep_absent_witness :
    removeStep [{ id := "a", kind := TransactionKind.WRITE, addr := "0",
                  data := "0", delay := 0 }] "b" =
      [{ id := "a", kind := TransactionKind.WRITE, addr := "0",
         data := "0", delay := 0 }] ∧
    generateCode (removeStep [{ id := "a", kind := TransactionKind.WRITE,
                                addr := "0", data := "0", delay := 0 }] "b") =
      generateCode [{ id := "a", kind := TransactionKind.WRITE, addr := "0",
                      data := "0", delay := 0 }] :=
  removeStep_absent _ "b" (by decide)

/-- C2 counterexample: entering "-5" in the delay field stores −5 in the
pending step, a negative value, refuting the claim that every stored value
is non-negative. -/
theorem storedDelay_negative_cex :
    storedDelay "-5" = -5 ∧ storedDelay "-5" < 0 ∧
    (delayInput { kind := none, addr := none, data := none, delay := none }
        "-5").delay = some (-5) := by
  refine ⟨by decide, by decide, by decide⟩

/-- C2 amended: the delay onChange handler always stores a definite
integer in the pending step: non-numeric text defaults to zero, numeric
text (including negative text) is stored as parsed. -/
theorem delayInput_coercion (cur : PartialStep) (text : String) :
    (delayInput cur text).delay = some (storedDelay text) ∧
    (parseIntJS text = none → storedDelay text = 0) ∧
    (∀ n : Int, parseIntJS text = some n → storedDelay text = n) := by
  refine ⟨rfl, ?_, ?_⟩
  · intro h
    simp [storedDelay, jsOrNum, h]
  · intro n h
    simp only [storedDelay, jsOrNum, h]
    split
    · omega
    · rfl

/-- Witness for C2 (amended) at the texts "7" and "abc". -/
theorem delayInput_coercion_witness :
    parseIntJS "7" = some 7 ∧ storedDelay "7" = 7 ∧
    parseIntJS "abc" = none ∧ storedDelay "abc" = 0 :=
  ⟨by decide,
   (delayInput_coercion { kind := none, addr := none, data := none, delay := none }
       "7").2.2 7 (by decide),
   by decide,
   (delayInput_coercion { kind := none, addr := none, data := none, delay := none }
       "abc").2.1 (by decide)⟩

/-- C10: the step appended by `addStep` never has empty addr or data text:
an empty or missing pending addr/data is replaced by the text "0", a
missing kind defaults to WRITE, and a missing or zero pending delay is
stored as 0; hence a list whose steps all have non-empty addr and data
keeps that property across `addStep`. -/
theorem addStep_defaults (steps : List SequenceStep) (cur : PartialStep)
    (now : String) (st : SequenceStep)
    (hst : addStep steps cur now = steps ++ [st]) :
    st.id = now ∧ st.addr ≠ "" ∧ st.data ≠ "" ∧
    (cur.kind = none → st.kind = TransactionKind.WRITE) ∧
    ((cur.addr = none ∨ cur.addr = some "") → st.addr = "0") ∧
    ((cur.data = none ∨ cur.data = some "") → st.data = "0") ∧
    ((cur.delay = none ∨ cur.delay = some 0) → st.delay = 0) ∧
    (∀ t ∈ addStep steps cur now,
      (∀ u ∈ steps, u.addr ≠ "" ∧ u.data ≠ "") → t.addr ≠ "" ∧ t.data ≠ "") := by
  have hrec : st = { id := now
                     kind := jsOrKind cur.kind TransactionKind.WRITE
                     addr := jsOrStr cur.addr "0"
                     data := jsOrStr cur.data "0"
                     delay := jsOrNum cur.delay 0 } := by
    have h1 := hst.symm.trans (rfl : addStep steps cur now = addStep steps cur now)
    rw [addStep] at h1
    have h2 := List.append_cancel_left (α := SequenceStep) h1
    simpa using h2
  have haddr : jsOrStr cur.addr "0" ≠ "" := by
    rcases cur.addr with _ | a
    · simp [jsOrStr]
    · simp only [jsOrStr]
      split
      · simp
      · assumption
  have hdata : jsOrStr cur.data "0" ≠ "" := by
    rcases cur.data with _ | a
    · simp [jsOrStr]
    · simp only [jsOrStr]
      split
      · simp
      · assumption
  subst hrec
  refine ⟨rfl, haddr, hdata, ?_, ?_, ?_, ?_, ?_⟩
  · intro h; simp [jsOrKind, h]
  · rintro (h | h) <;> simp [jsOrStr, h]
  · rintro (h | h) <;> simp [jsOrStr, h]
  · rintro (h | h) <;> simp [jsOrNum, h]
  · intro t ht hall
    rw [addStep] at ht
    rcases List.mem_append.mp ht with h | h
    · exact hall t h
    · have : t = _ := List.mem_singleton.mp h
      subst this
      exact ⟨haddr, hdata⟩

/-- Witness for C10 at the empty list, a fully falsy pending form and a
concrete timestamp text. -/
theorem addStep_defaults_witness :
    ({ id := "1700000000000", kind := TransactionKind.WRITE, addr := "0",
       data := "0", delay := 0 } : SequenceStep).id = "1700000000000" ∧
    ({ id := "1700000000000", kind := TransactionKind.WRITE, addr := "0",
       data := "0", delay := 0 } : SequenceStep).addr ≠ "" ∧
    ({ id := "1700000000000", kind := TransactionKind.WRITE, addr := "0",
       data := "0", delay := 0 } : SequenceStep).data ≠ "" ∧
    (({ kind := none, addr := some "", data := some "", delay := some 0 }
        : PartialStep).kind = none →
      ({ id := "1700000000000", kind := TransactionKind.WRITE, addr := "0",
         data := "0", delay := 0 } : SequenceStep).kind = TransactionKind.WRITE) ∧
    ((({ kind := none, addr := some "", data := some "", delay := some 0 }
        : PartialStep).addr = none ∨
      ({ kind := none, addr := some "", data := some "", delay := some 0 }
        : PartialStep).addr = some "") →
      ({ id := "1700000000000", kind := TransactionKind.WRITE, addr := "0",
         data := "0", delay := 0 } : SequenceStep).addr = "0") ∧
    ((({ kind := none, addr := some "", data := some "", delay := some 0 }
        : PartialStep).data = none ∨
      ({ kind := none, addr := some "", data := some "", delay := some 0 }
        : PartialStep).data = some "") →
      ({ id := "1700000000000", kind := TransactionKind.WRITE, addr := "0",
         data := "0", delay := 0 } : SequenceStep).data = "0") ∧
    ((({ kind := none, addr := some "", data := some "", delay := some 0 }
        : PartialStep).delay = none ∨
      ({ kind := none, addr := some "", data := some "", delay := some 0 }
        : PartialStep).delay = some 0) →
      ({ id := "1700000000000", kind := TransactionKind.WRITE, addr := "0",
         data := "0", delay := 0 } : SequenceStep).delay = 0) ∧
    (∀ t ∈ addStep []
        { kind := none, addr := some "", data := some "", delay := some 0 }
        "1700000000000",
      (∀ u ∈ ([] : List SequenceStep), u.addr ≠ "" ∧ u.data ≠ "") →
      t.addr ≠ "" ∧ t.data ≠ "") :=
  addStep_defaults []
    { kind := none, addr := some "", data := some "", delay := some 0 }
    "1700000000000"
    { id := "1700000000000", kind := TransactionKind.WRITE, addr := "0",
      data := "0", delay := 0 }
    (by decide)

/-- One navigation event keeps the cursor inside the step range. -/
lemma applyOp_bounds (s : AppState) (op : WalkOp)
    (h0 : 0 ≤ s.simulationStepIndex)
    (h1 : s.simulationStepIndex ≤ (totalSteps : Int) - 1) :
    0 ≤ (applyOp s op).simulationStepIndex ∧
    (applyOp s op).simulationStepIndex ≤ (totalSteps : Int) - 1 := by
  cases op with
  | next =>
    simp only [applyOp, nextStep]
    split
    · constructor <;> simp <;> omega
    · exact ⟨h0, h1⟩
  | prev =>
    simp only [applyOp, prevStep]
    split
    · constructor <;> simp <;> omega
    · exact ⟨h0, h1⟩

/-- Any run of navigation events keeps the cursor inside the step range. -/
lemma runOps_bounds (ops : List WalkOp) (s : AppState)
    (h0 : 0 ≤ s.simulationStepIndex)
    (h1 : s.simulationStepIndex ≤ (totalSteps : Int) - 1) :
    0 ≤ (runOps s ops).simulationStepIndex ∧
    (runOps s ops).simulationStepIndex ≤ (totalSteps : Int) - 1 := by
  induction ops generalizing s with
  | nil => exact ⟨h0, h1⟩
  | cons op ops ih =>
    obtain ⟨g0, g1⟩ := applyOp_bounds s op h0 h1
    simpa [runOps, List.foldl] using ih (applyOp s op) g0 g1

/-- C5: there are 7 walkthrough steps; from any active state with cursor in
[0, N−1], every sequence of Next/Prev events keeps the cursor in [0, N−1],
and Next at the upper bound as well as Prev at the lower bound leave the
state unchanged (no error, no wraparound). -/
theorem walkthrough_cursor_bounded (s : AppState) (ops : List WalkOp)
    (h0 : 0 ≤ s.simulationStepIndex)
    (h1 : s.simulationStepIndex ≤ (totalSteps : Int) - 1) :
    totalSteps = 7 ∧
    (0 ≤ (runOps s ops).simulationStepIndex ∧
      (runOps s ops).simulationStepIndex ≤ (totalSteps : Int) - 1) ∧
    (s.simulationStepIndex = (totalSteps : Int) - 1 → nextStep s = s) ∧
    (s.simulationStepIndex = 0 → prevStep s = s) := by
  refine ⟨rfl, runOps_bounds ops s h0 h1, ?_, ?_⟩
  · intro h
    simp [nextStep, h]
  · intro h
    simp [prevStep, h]

/-- Witness for C5 at the state on step 6 with a Next-then-Prev run. -/
theorem walkthrough_cursor_bounded_witness :
    totalSteps = 7 ∧
    (0 ≤ (runOps { activeComponent := UvmComponentType.SCOREBOARD,
                   simulationStepIndex := 6 }
            [WalkOp.next, WalkOp.prev]).simulationStepIndex ∧
      (runOps { activeComponent := UvmComponentType.SCOREBOARD,
                simulationStepIndex := 6 }
          [WalkOp.next, WalkOp.prev]).simulationStepIndex ≤ (totalSteps : Int) - 1) ∧
    (({ activeComponent := UvmComponentType.SCOREBOARD,
        simulationStepIndex := 6 } : AppState).simulationStepIndex =
        (totalSteps : Int) - 1 →
      nextStep { activeComponent := UvmComponentType.SCOREBOARD,
                 simulationStepIndex := 6 } =
        { activeComponent := UvmComponentType.SCOREBOARD,
          simulationStepIndex := 6 }) ∧
    (({ activeComponent := UvmComponentType.SCOREBOARD,
        simulationStepIndex := 6 } : AppState).simulationStepIndex = 0 →
      prevStep { activeComponent := UvmComponentType.SCOREBOARD,
                 simulationStepIndex := 6 } =
        { activeComponent := UvmComponentType.SCOREBOARD,
          simulationStepIndex := 6 }) :=
  walkthrough_cursor_bounded
    { activeComponent := UvmComponentType.SCOREBOARD, simulationStepIndex := 6 }
    [WalkOp.next, WalkOp.prev] (by decide) (by decide)

/-- C6: while the walkthrough is active the diagram click handlers ignore
the selection (the active component stays what the walkthrough set, namely
the component of the step at the cursor); while inactive a click selects
the clicked component. -/
theorem diagramClick_guard (s : AppState) (c : UvmComponentType) :
    (0 ≤ s.simulationStepIndex →
      s.activeComponent = stepComponent s.simulationStepIndex →
      diagramClick s c = s ∧
      (diagramClick s c).activeComponent = stepComponent s.simulationStepIndex) ∧
    (s.simulationStepIndex = -1 → (diagramClick s c).activeComponent = c) := by
  constructor
  · intro h0 ha
    have hsim : isSimulating s = true := by
      simp [isSimulating, h0]
    refine ⟨?_, ?_⟩ <;> simp [diagramClick, hsim, ha]
  · intro h
    have hsim : isSimulating s = false := by
      simp [isSimulating, h]
    simp [diagramClick, hsim]

/-- Witness for C6: on step 2 a click on the DUT node is ignored; while
inactive the same click selects the DUT. -/
theorem diagramClick_guard_witness :
    (diagramClick { activeComponent := UvmComponentType.DRIVER,
                    simulationStepIndex := 2 } UvmComponentType.DUT =
      { activeComponent := UvmComponentType.DRIVER, simulationStepIndex := 2 } ∧
     (diagramClick { activeComponent := UvmComponentType.DRIVER,
                     simulationStepIndex := 2 } UvmComponentType.DUT).activeComponent =
       stepComponent ({ activeComponent := UvmComponentType.DRIVER,
                        simulationStepIndex := 2 } : AppState).simulationStepIndex) ∧
    (diagramClick { activeComponent := UvmComponentType.DRIVER,
                    simulationStepIndex := -1 } UvmComponentType.DUT).activeComponent =
      UvmComponentType.DUT :=
  ⟨(diagramClick_guard
      { activeComponent := UvmComponentType.DRIVER, simulationStepIndex := 2 }
      UvmComponentType.DUT).1 (by decide) (by decide),
   (diagramClick_guard
      { activeComponent := UvmComponentType.DRIVER, simulationStepIndex := -1 }
      UvmComponentType.DUT).2 rfl⟩

/-- C3: for every step list, each READ or WRITE step contributes to the
compiled output, at its list position, a create/randomize/dispatch block
parameterized by its addr and kind, with the data constraint line exactly
when the kind is WRITE, one trailing wait line exactly when its delay is
positive, and no wait line (no default substitution) when the delay is
zero. -/
theorem readwrite_block_shape (steps : List SequenceStep) (i : Nat)
    (s : SequenceStep) (hget : steps.get? i = some s)
    (hk : s.kind ≠ TransactionKind.IDLE) :
    ∃ u v : String,
      generateCode steps = u ++
        ("    // Step " ++ toString (i + 1) ++ ": " ++ kindText s.kind ++ "\n" ++
         ("    req = my_transaction::type_id::create(\"req\");\n" ++
          "    start_item(req);\n" ++
          "    if (!req.randomize() with \x7b\n" ++
          "      addr == " ++ s.addr ++ ";\n" ++
          "      kind == " ++ kindText s.kind ++ ";\n" ++
          (if s.kind = TransactionKind.WRITE then
            "      data == " ++ s.data ++ ";\n"
          else "") ++
          "    \x7d) `uvm_error(\"SEQ\", \"Randomization failed\")\n" ++
          "    finish_item(req);\n" ++
          (if s.delay > 0 then "    #" ++ toString s.delay ++ ";\n" else "") ++
          "\n")) ++ v := by
  obtain ⟨u, v, hu⟩ := generateCode_split steps i s hget
  refine ⟨classHead ++ u, v ++ classTail, ?_⟩
  rw [hu]
  simp [stepBlock, stepBody, hk, String.append_assoc]

/-- Witness for C3 at the claim scenario: a single WRITE step with
addr 0x1000, data 0xFF and zero delay. -/
theorem readwrite_block_shape_witness :
    ∃ u v : String,
      generateCode [{ id := "1", kind := TransactionKind.WRITE,
                      addr := "0x1000", data := "0xFF", delay := 0 }] = u ++
        ("    // Step " ++ toString (0 + 1) ++ ": " ++
         kindText ({ id := "1", kind := TransactionKind.WRITE, addr := "0x1000",
                     data := "0xFF", delay := 0 } : SequenceStep).kind ++ "\n" ++
         ("    req = my_transaction::type_id::create(\"req\");\n" ++
          "    start_item(req);\n" ++
          "    if (!req.randomize() with \x7b\n" ++
          "      addr == " ++
          ({ id := "1", kind := TransactionKind.WRITE, addr := "0x1000",
             data := "0xFF", delay := 0 } : SequenceStep).addr ++ ";\n" ++
          "      kind == " ++
          kindText ({ id := "1", kind := TransactionKind.WRITE, addr := "0x1000",
                      data := "0xFF", delay := 0 } : SequenceStep).kind ++ ";\n" ++
          (if ({ id := "1", kind := TransactionKind.WRITE, addr := "0x1000",
                 data := "0xFF", delay := 0 } : SequenceStep).kind =
              TransactionKind.WRITE then
            "      data == " ++
            ({ id := "1", kind := TransactionKind.WRITE, addr := "0x1000",
               data := "0xFF", delay := 0 } : SequenceStep).data ++ ";\n"
          else "") ++
          "    \x7d) `uvm_error(\"SEQ\", \"Randomization failed\")\n" ++
          "    finish_item(req);\n" ++
          (if ({ id := "1", kind := TransactionKind.WRITE, addr := "0x1000",
                 data := "0xFF", delay := 0 } : SequenceStep).delay > 0 then
            "    #" ++
            toString ({ id := "1", kind := TransactionKind.WRITE, addr := "0x1000",
                        data := "0xFF", delay := 0 } : SequenceStep).delay ++ ";\n"
          else "") ++
          "\n")) ++ v :=
  readwrite_block_shape
    [{ id := "1", kind := TransactionKind.WRITE, addr := "0x1000",
       data := "0xFF", delay := 0 }] 0
    { id := "1", kind := TransactionKind.WRITE, addr := "0x1000",
      data := "0xFF", delay := 0 } (by decide) (by decide)

/-- C4: for every step list, each IDLE step contributes exactly one wait
line at its list position, using its delay; a zero delay is replaced by
the fixed nonzero default wait value 10 rather than emitting a zero-length
wait. -/
theorem idle_block_shape (steps : List SequenceStep) (i : Nat)
    (s : SequenceStep) (hget : steps.get? i = some s)
    (hk : s.kind = TransactionKind.IDLE) :
    ∃ u v : String,
      generateCode steps = u ++
        ("    // Step " ++ toString (i + 1) ++ ": " ++ "IDLE" ++ "\n" ++
         ("    #" ++ toString (if s.delay = 0 then (10 : Int) else s.delay) ++
          ";\n\n")) ++ v := by
  obtain ⟨u, v, hu⟩ := generateCode_split steps i s hget
  refine ⟨classHead ++ u, v ++ classTail, ?_⟩
  rw [hu]
  simp [stepBlock, stepBody, hk, kindText, jsOrElse, String.append_assoc]

/-- Witness for C4 at the claim scenario: a single IDLE step with zero
delay, whose wait line uses the default value 10. -/
theorem idle_block_shape_witness :
    ∃ u v : String,
      generateCode [{ id := "1", kind := TransactionKind.IDLE, addr := "0",
                      data := "0", delay := 0 }] = u ++
        ("    // Step " ++ toString (0 + 1) ++ ": " ++ "IDLE" ++ "\n" ++
         ("    #" ++
          toString (if ({ id := "1", kind := TransactionKind.IDLE, addr := "0",
                          data := "0", delay := 0 } : SequenceStep).delay = 0
                    then (10 : Int)
                    else ({ id := "1", kind := TransactionKind.IDLE, addr := "0",
                            data := "0", delay := 0 } : SequenceStep).delay) ++
          ";\n\n")) ++ v :=
  idle_block_shape
    [{ id := "1", kind := TransactionKind.IDLE, addr := "0", data := "0",
       delay := 0 }] 0
    { id := "1", kind := TransactionKind.IDLE, addr := "0", data := "0",
      delay := 0 } (by decide) (by decide)

/-- Decomposition of the compiled output of a two-step list: a fixed text
up to the first block header, then the first step's kind text, then the
rest. -/
lemma generateCode_two (a b : SequenceStep) :
    generateCode [a, b] =
      (classHead ++ ("    // Step " ++ toString (0 + 1) ++ ": ")) ++
        (kindText a.kind ++
          ("\n" ++ (stepBody a ++ (stepBlock 1 b ++ classTail)))) := by
  simp [generateCode, blocksFrom, stepBlock, String.append_assoc]

/-- C1 amended: the compiled output is order-sensitive whenever the two
steps differ in kind — the first character after the first block header is
the first character of the first step's kind text, and the three kind
texts start with distinct characters. -/
theorem generateCode_order_sensitive (a b : SequenceStep)
    (h : a.kind ≠ b.kind) :
    generateCode [a, b] ≠ generateCode [b, a] := by
  intro he
  rw [generateCode_two a b, generateCode_two b a] at he
  exact kindText_head_ne h _ _ (append_cancel_left' he)

/-- Witness for C1 (amended) at a WRITE step and an IDLE step. -/
theorem generateCode_order_sensitive_witness :
    generateCode
        [{ id := "x", kind := TransactionKind.WRITE, addr := "1", data := "2",
           delay := 0 },
         { id := "y", kind := TransactionKind.IDLE, addr := "0", data := "0",
           delay := 3 }] ≠
      generateCode
        [{ id := "y", kind := TransactionKind.IDLE, addr := "0", data := "0",
           delay := 3 },
         { id := "x", kind := TransactionKind.WRITE, addr := "1", data := "2",
           delay := 0 }] :=
  generateCode_order_sensitive
    { id := "x", kind := TransactionKind.WRITE, addr := "1", data := "2",
      delay := 0 }
    { id := "y", kind := TransactionKind.IDLE, addr := "0", data := "0",
      delay := 3 } (by decide)

set_option maxRecDepth 32768 in
/-- C1 counterexample: two steps that differ in their fields (in `id` and
in `addr`) whose two orders compile to the same text: the step id is never
rendered, and the free-form address text of `cexB` embeds a whole rendered
block, making the two orders render identically. -/
theorem generateCode_order_cex :
    cexA ≠ cexB ∧ cexA.kind = cexB.kind ∧ cexA.addr ≠ cexB.addr ∧
    generateCode [cexA, cexB] = generateCode [cexB, cexA] := by
  refine ⟨by decide, rfl, by decide, by decide⟩
